import Mathlib

/-!
Verification of the payment transaction safety subsystem of the
ssc-transparency-dashboard Apps Script backend (Code.gs).

The definitions below are a shallow embedding of the validation,
locking and payment-recording code: sheet rows become typed records,
sheet scans become list scans, JS numbers become rationals, JS Dates
become a calendar-day index paired with a millisecond offset, and the
nondeterministic / effectful collaborators (clock, Math.random,
LockService, appendRow success, the audit sheet) become explicit
parameters of an environment record.
-/

namespace SSC

/-- A JS `Date`, modelled by its calendar day (an abstract day index:
`toDateString` equality is day equality) together with the time of day
in milliseconds.  Only the calendar day is observable in this
subsystem's checks. -/
structure JSDate where
  day : Int
  ms : Nat
deriving DecidableEq, Repr

/-- The session object returned by `validateSession` (the external
auth collaborator): caller identity, role and section. -/
structure Session where
  user : String
  role : String
  department : String
  «section» : String
deriving DecidableEq, Repr

/-- A row of the `Students` sheet, columns 0..6 as read by
`getDataRows(stuSheet, 2, 7)` and typed after the schema
`['StudentID','StudentNo','FullName','SectionID','Status','CreatedAt',
'ExpectedAmount']` (setupDatabase) and the writer in
`handleCreateSection`, which appends
`[id, no, name, sectionId, 'Active', now, expectedAmount]`.  Note:
column 4 is the Status STRING (`'Active'`), column 5 the CreatedAt
date, and column 6 the expected amount. -/
structure Student where
  studentId : String
  studentNo : String
  fullName : String
  sectionId : String
  status : String
  createdAt : JSDate
  expectedAmount : ℚ
deriving DecidableEq, Repr

/-- A row of the `Payments` sheet, in the column order used by
`paySheet.appendRow` in `handleRecordPayment`:
PaymentID, StudentID, SectionID, Amount, PaymentDate, EnteredBy,
CreatedAt, PhysicalReceiptNo, ReceiptUrl, IdempotencyKey, IsVoided,
CollectionDayID, Notes.  `createdAt` is an epoch-millisecond
timestamp. -/
structure PaymentRow where
  paymentId : String
  studentId : String
  sectionId : String
  amount : ℚ
  paymentDate : JSDate
  enteredBy : String
  createdAt : Int
  physicalReceiptNo : String
  receiptUrl : String
  idempotencyKey : String
  isVoided : Bool
  collectionDayId : String
  notes : String
deriving DecidableEq, Repr

/-! ## JS string primitives

The JS string operations used by the validators, written out over the
character list so that concrete runs evaluate.  `trim` removes
whitespace from both ends; `toUpperCase` maps lowercase ASCII letters
to uppercase (the receipt numbers and keys at play are ASCII). -/

/-- A whitespace character as removed by JS `trim()`. -/
def isJsSpace (c : Char) : Bool := c = ' ' || c = '\t' || c = '\n' || c = '\r'

/-- JS `s.trim()`. -/
def jsTrim (s : String) : String :=
  ⟨((s.data.dropWhile isJsSpace).reverse.dropWhile isJsSpace).reverse⟩

/-- JS `toUpperCase` on one character. -/
def jsUpperChar (c : Char) : Char :=
  if c.isLower then Char.ofNat (c.toNat - 32) else c

/-- JS `s.toUpperCase()`. -/
def jsToUpper (s : String) : String := ⟨s.data.map jsUpperChar⟩

/-! ## CONFIG constants (Code.gs `CONFIG`) -/

def PAYMENT_AMOUNT_MIN : ℚ := 5
def PAYMENT_AMOUNT_MULTIPLE : ℚ := 5
def MAX_PAYMENT_AMOUNT : ℚ := 10000
def IDEMPOTENCY_RETENTION_HOURS : Int := 24

/-- `CONFIG.IDEMPOTENCY_RETENTION_HOURS * 60 * 60 * 1000` in ms. -/
def retentionMs : Int := IDEMPOTENCY_RETENTION_HOURS * 60 * 60 * 1000

/-! ## Validators -/

/-- Result shape of `validatePaymentAmount`. -/
structure AmountValidation where
  valid : Bool
  message : String
deriving DecidableEq, Repr

/-- JS `numAmount % CONFIG.PAYMENT_AMOUNT_MULTIPLE !== 0`: a finite JS
number satisfies `a % 5 === 0` exactly when it is an integral multiple
of 5, i.e. the rational has denominator 1 and numerator divisible by
5 (the unit is `CONFIG.PAYMENT_AMOUNT_MULTIPLE = 5`). -/
def isMultipleOfUnit (a : ℚ) : Bool := a.den == 1 && a.num % 5 == 0

/-- `isMultipleOfUnit` means being an integral multiple of 5. -/
theorem isMultipleOfUnit_iff (a : ℚ) :
    isMultipleOfUnit a = true ↔ ∃ k : ℤ, a = 5 * k := by
  simp only [isMultipleOfUnit, Bool.and_eq_true, beq_iff_eq]
  constructor
  · rintro ⟨hden, hmod⟩
    obtain ⟨m, hm⟩ := Int.dvd_of_emod_eq_zero hmod
    refine ⟨m, ?_⟩
    have ha : (a.num : ℚ) = a := by
      conv_rhs => rw [← Rat.num_div_den a]
      rw [hden]
      simp
    rw [← ha, hm]
    push_cast
    ring
  · rintro ⟨k, rfl⟩
    have h5 : (5 : ℚ) * k = ((5 * k : ℤ) : ℚ) := by push_cast; ring
    constructor
    · rw [h5, Rat.intCast_den]
    · rw [h5, Rat.intCast_num]
      exact Int.mul_emod_right 5 k

/-- `validatePaymentAmount(amount)` (Code.gs).  The argument is the
`parseFloat`ed JS number; `none` models `NaN`.  The first guard is
`!amount || isNaN(amount)`, which for a number is true exactly for
`NaN` and `0`. -/
def validatePaymentAmount (amount : Option ℚ) : AmountValidation :=
  match amount with
  | none => ⟨false, "Amount must be a valid number"⟩
  | some numAmount =>
    if numAmount = 0 then ⟨false, "Amount must be a valid number"⟩
    else if numAmount ≤ 0 then ⟨false, "Amount must be greater than zero"⟩
    else if numAmount < PAYMENT_AMOUNT_MIN then ⟨false, "Minimum amount is 5"⟩
    else if MAX_PAYMENT_AMOUNT < numAmount then ⟨false, "Maximum amount is 10000"⟩
    else if ¬ isMultipleOfUnit numAmount then ⟨false, "Amount must be a multiple of 5"⟩
    else ⟨true, "Valid amount"⟩

/-- Result shape of `validateUniqueReceiptNumber`. -/
structure ReceiptValidation where
  valid : Bool
  message : String
deriving DecidableEq, Repr

/-- The conflict message template
`Receipt number "..." already used in payment ...`. -/
def receiptUsedMessage (receiptNo paymentId : String) : String :=
  "Receipt number \"" ++ receiptNo ++ "\" already used in payment " ++ paymentId

/-- The scan predicate of the `validateUniqueReceiptNumber` loop: a row
conflicts when it is not voided, is not the excluded payment, and its
receipt number matches after trim + uppercase. -/
def receiptConflictPred (cleanReceiptNo : String) (excludePaymentId : Option String)
    (row : PaymentRow) : Bool :=
  !row.isVoided
    && !(match excludePaymentId with
         | some ex => row.paymentId == ex
         | none => false)
    && jsToUpper (jsTrim row.physicalReceiptNo) == cleanReceiptNo

/-- `validateUniqueReceiptNumber(receiptNo, excludePaymentId)`
(Code.gs), over the list of `Payments` rows.  The sheet itself is part
of the state, so the `Payments sheet not found` branch does not
arise. -/
def validateUniqueReceiptNumber (receiptNo : String) (excludePaymentId : Option String)
    (payments : List PaymentRow) : ReceiptValidation :=
  if jsTrim receiptNo = "" then ⟨false, "Physical receipt number is required"⟩
  else
    let cleanReceiptNo := jsToUpper (jsTrim receiptNo)
    match payments.find? (receiptConflictPred cleanReceiptNo excludePaymentId) with
    | some row => ⟨false, receiptUsedMessage receiptNo row.paymentId⟩
    | none => ⟨true, "Receipt number is unique"⟩

/-- Result shape of `validateIdempotencyKey`; `existingPaymentId` is
present exactly on the duplicate branch. -/
structure IdemValidation where
  valid : Bool
  message : String
  existingPaymentId : Option String
deriving DecidableEq, Repr

/-- The scan predicate of the `validateIdempotencyKey` loop: not
voided, created strictly after the cutoff, matching key. -/
def idemFreshPred (idempotencyKey : String) (cutoffTime : Int) (row : PaymentRow) : Bool :=
  !row.isVoided && decide (cutoffTime < row.createdAt) && row.idempotencyKey == idempotencyKey

/-- `validateIdempotencyKey(idempotencyKey)` (Code.gs), over the
`Payments` rows, with `now` the value of `Date.now()`. -/
def validateIdempotencyKey (idempotencyKey : String) (now : Int)
    (payments : List PaymentRow) : IdemValidation :=
  if jsTrim idempotencyKey = "" then ⟨false, "Idempotency key is required", none⟩
  else
    let cutoffTime : Int := now - retentionMs
    match payments.find? (idemFreshPred idempotencyKey cutoffTime) with
    | some row => ⟨false, "Duplicate request detected", some row.paymentId⟩
    | none => ⟨true, "Idempotency key is unique", none⟩

/-- Rational addition, written out on numerators and denominators.
It equals mathematical addition on `ℚ` (`ratAdd_eq_add`) and is used
in the executable definitions so that concrete runs evaluate inside
the kernel. -/
def ratAdd (a b : ℚ) : ℚ := mkRat (a.num * b.den + b.num * a.den) (a.den * b.den)

theorem ratAdd_eq_add (a b : ℚ) : ratAdd a b = a + b := (Rat.add_def' a b).symm

/-- Sum of amounts of the non-voided payments of one student: the
`totalPaid` accumulation loop of `validateStudentPaymentEligibility`. -/
def sumNonVoidedFor (studentId : String) (payments : List PaymentRow) : ℚ :=
  (payments.filter (fun row => row.studentId == studentId && !row.isVoided)).foldl
    (fun acc row => ratAdd acc row.amount) 0

/-- `sumNonVoidedFor` is the mathematical sum of the matching
amounts. -/
theorem sumNonVoidedFor_eq_sum (studentId : String) (payments : List PaymentRow) :
    sumNonVoidedFor studentId payments =
      ((payments.filter (fun row => row.studentId == studentId && !row.isVoided)).map
        PaymentRow.amount).sum := by
  rw [sumNonVoidedFor]
  simp only [ratAdd_eq_add]
  rw [List.sum_eq_foldl, List.foldl_map]

/-- Result of `validateStudentPaymentEligibility`: the source returns
`{valid:false, message}` on failure and
`{valid:true, message, student, totalPaid, newTotal}` on success. -/
inductive EligibilityValidation where
  | invalid (message : String)
  | valid (message : String) (student : Student) (totalPaid newTotal : ℚ)
deriving DecidableEq, Repr

/-- The JS truthiness test `eligibilityValidation.valid`. -/
def EligibilityValidation.isValid : EligibilityValidation → Bool
  | .invalid _ => false
  | .valid _ _ _ _ => true

/-- The `Payment would exceed expected amount ...` message template. -/
def exceedMessage (expectedAmount totalPaid newTotal : ℚ) : String :=
  "Payment would exceed expected amount. Expected: " ++ toString expectedAmount
    ++ ", Already paid: " ++ toString totalPaid ++ ", New total: " ++ toString newTotal

/-- The digit string read by `parseFloat`, as a natural number. -/
def digitsToNat (l : List Char) : Nat :=
  l.foldl (fun acc c => acc * 10 + (c.toNat - 48)) 0

/-- JS `parseFloat` on a string (plain decimal forms, which covers the
sheet values at play; exponent notation is not modelled): skip leading
whitespace, read an optional sign and then the longest
`digits[.digits]` prefix; `none` models `NaN`, returned when no digit
is read — in particular `parseFloat('Active') = NaN`. -/
def parseFloat (s : String) : Option ℚ :=
  let l := s.data.dropWhile isJsSpace
  let signAndRest : Bool × List Char :=
    match l with
    | '-' :: rest => (true, rest)
    | '+' :: rest => (false, rest)
    | _ => (false, l)
  let intPart := signAndRest.snd.takeWhile Char.isDigit
  let afterInt := signAndRest.snd.drop intPart.length
  let fracPart :=
    match afterInt with
    | '.' :: rest => rest.takeWhile Char.isDigit
    | _ => []
  if intPart.isEmpty && fracPart.isEmpty then none
  else
    let num : Int := (digitsToNat intPart * 10 ^ fracPart.length + digitsToNat fracPart : Nat)
    some (mkRat (if signAndRest.fst then -num else num) (10 ^ fracPart.length))

/-- A JS `Date` object is truthy whatever its value. -/
def jsDateTruthy (_d : JSDate) : Bool := true

/-- `validateStudentPaymentEligibility(studentId, amount, session)`
(Code.gs) over the `Students` and `Payments` rows.

The source builds the student object as
`{ ..., expectedAmount: stuRows[i][4] || 0, isActive: stuRows[i][5] }`:
column 4 is the Status string and column 5 the CreatedAt date, not the
ExpectedAmount column 6.  Hence `isActive` is a Date — always truthy,
so the inactive branch never fires — and
`expectedAmount = parseFloat(Status)` is `NaN` for the `'Active'`
rows the code writes, for which both comparisons of the ceiling guard
`expectedAmount > 0 && newTotal > expectedAmount` are false, so the
cap never fires either.  (An empty Status cell is falsy, giving
expected amount 0, which also disables the cap; only a numeric Status
string would enable it.) -/
def validateStudentPaymentEligibility (studentId : String) (amount : ℚ) (session : Session)
    (students : List Student) (payments : List PaymentRow) : EligibilityValidation :=
  match students.find? (fun st => st.studentId == studentId) with
  | none => .invalid "Student not found"
  | some student =>
    -- `student.isActive` is `stuRows[i][5]`, the CreatedAt date
    if !(jsDateTruthy student.createdAt) then .invalid "Student is inactive"
    else if session.role == "Treasurer" && !(student.sectionId == session.«section») then
      .invalid "Student not in your section"
    else
      let totalPaid := sumNonVoidedFor studentId payments
      let newTotal := ratAdd totalPaid amount
      -- `parseFloat(student.expectedAmount)` where the field holds
      -- `stuRows[i][4] || 0`: the Status string, or the number 0 when
      -- that cell is empty
      match (if student.status = "" then some 0 else parseFloat student.status :
          Option ℚ) with
      | none =>
        -- NaN: both guard comparisons are false
        .valid "Student eligible for payment" student totalPaid newTotal
      | some expectedAmount =>
        if 0 < expectedAmount ∧ expectedAmount < newTotal then
          .invalid (exceedMessage expectedAmount totalPaid newTotal)
        else
          .valid "Student eligible for payment" student totalPaid newTotal

/-! ## Lock manager -/

/-- The lock objects handed out by `LockService`.  The source's
`acquireLockWithRetry` calls `LockService.getScriptLock()`, which
always hands out the one script-global lock; the `lockKey` argument is
used only in log strings.  There is thus exactly one lock resource. -/
inductive LockResource where
  | script
deriving DecidableEq, Repr

/-- `LockService.getScriptLock()`: the single script-global lock. -/
def getScriptLock : LockResource := LockResource.script

/-- The retry loop of `acquireLockWithRetry`, carrying the current
attempt index and the remaining iterations; `waitOk i` tells whether
`lock.waitLock(...)` succeeds (no exception) on attempt `i`.  The
returned list records the `Utilities.sleep(100 * (attempt + 1))`
durations performed between failed attempts. -/
def lockLoop (waitOk : Nat → Bool) (maxAttempts : Nat) :
    Nat → Nat → Option LockResource × List Nat
  | _, 0 => (none, [])
  | attempt, remaining + 1 =>
    if waitOk attempt then (some getScriptLock, [])
    else if attempt = maxAttempts - 1 then (none, [])
    else
      let rest := lockLoop waitOk maxAttempts (attempt + 1) remaining
      (rest.fst, 100 * (attempt + 1) :: rest.snd)

/-- `acquireLockWithRetry(lockKey, maxAttempts)` (Code.gs).  The JS
default `maxAttempts = maxAttempts || 3` maps `0` to `3`.  The first
component is the acquired lock (`none` models the JS `null`); the
second lists the backoff sleeps performed. -/
def acquireLockWithRetry (lockKey : String) (maxAttempts0 : Nat) (waitOk : Nat → Bool) :
    Option LockResource × List Nat :=
  let maxAttempts := if maxAttempts0 = 0 then 3 else maxAttempts0
  lockLoop waitOk maxAttempts 0 maxAttempts

/-- The lock key built by `handleRecordPayment`:
`'recordPayment_' + studentId`. -/
def recordPaymentLockKey (studentId : String) : String :=
  "recordPayment_" ++ studentId

/-! ## Receipt-number generation -/

/-- JS `String(n).padStart(3, '0')`. -/
def padStart3 (s : String) : String :=
  if s.length < 3 then String.mk (List.replicate (3 - s.length) '0') ++ s else s

/-- `formatDate(date, 'YYYYMMDD')`: a string determined by (and
injective in) the calendar day of the date. -/
def formatDateYYYYMMDD (d : JSDate) : String := toString d.day

/-- One candidate `CONFIG.RECEIPT_NUMBER_` lead + date + '-' + 3-digit
sequence; `seq` is the `Math.floor(Math.random() * 1000)` draw. -/
def candidateReceipt (dateStr : String) (seq : Nat) : String :=
  "R-" ++ dateStr ++ "-" ++ padStart3 (toString (seq % 1000))

/-- `generateUniqueReceiptNumber(paymentDate)` (Code.gs): up to 100
random attempts, each collision-checked with
`validateUniqueReceiptNumber`; afterwards a timestamp-derived
fallback.  `randSeqs i` is the random draw of attempt `i`, `now` the
clock for the fallback. -/
def generateUniqueReceiptNumber (randSeqs : Nat → Nat) (now : Int) (paymentDate : JSDate)
    (payments : List PaymentRow) : String :=
  let dateStr := formatDateYYYYMMDD paymentDate
  match (List.range 100).find? (fun attempt =>
      (validateUniqueReceiptNumber (candidateReceipt dateStr (randSeqs attempt)) none
        payments).valid) with
  | some attempt => candidateReceipt dateStr (randSeqs attempt)
  | none => "R-" ++ dateStr ++ "-" ++ toString (now / 1000)

/-! ## Audit sink (`logAction`) -/

/-- The JSON object passed (stringified) as the details of the
`PAYMENT_RECORD` audit entry. -/
structure AuditDetails where
  studentId : String
  studentName : String
  amount : ℚ
  physicalReceiptNo : String
  systemReceiptNo : String
  paymentDate : JSDate
  previousTotal : ℚ
  newTotal : ℚ
  idempotencyKey : String
deriving DecidableEq, Repr

/-- A row of the `AuditLog` sheet as appended by `logAction`. -/
structure AuditEntry where
  logId : String
  user : String
  actionType : String
  table : String
  recordId : String
  details : AuditDetails
  createdAt : Int
  activeUserEmail : String
deriving DecidableEq, Repr

/-! ## Environment, request and state -/

/-- The effectful collaborators of `handleRecordPayment`, made
explicit: the clock, the random draws, `LockService.waitLock`
outcomes, and whether the two sheet appends succeed.  `logAction`
wraps its whole body in try/catch and swallows failures, so
`auditOk = false` merely drops the audit row.  `readThrows` models an
unexpected exception raised by the first in-lock sheet read, which the
outermost catch of `handleRecordPayment` intercepts. -/
structure Env where
  now : Int
  nowDate : JSDate
  uuid : String
  randPid : Nat
  randSeqs : Nat → Nat
  randLog : Nat
  waitOk : Nat → Bool
  appendOk : Bool
  auditOk : Bool
  readThrows : Bool
  activeUserEmail : String

/-- The `recordPayment` request payload after the external JSON/auth
plumbing: `amount` is the `parseFloat` result (`none` models `NaN`);
an empty `studentId`, `physicalReceiptNo` or `idempotencyKey` models a
missing/falsy field; `paymentDate = none` models an absent date. -/
structure Payload where
  studentId : String
  amount : Option ℚ
  physicalReceiptNo : String
  idempotencyKey : String
  paymentDate : Option JSDate
  notes : String
deriving Repr

/-- The data of the `createSuccessResponse` on the committed path. -/
structure CommitData where
  paymentId : String
  receiptNo : String
  physicalReceiptNo : String
  studentName : String
  amount : ℚ
  paymentDate : JSDate
  previousTotal : ℚ
  newTotal : ℚ
deriving DecidableEq, Repr

/-- The observable response of `handleRecordPayment`:
`createErrorResponse(message)`, the two duplicate-success shapes
(`duplicate: true` with the existing payment id and a message), or the
full committed success payload. -/
inductive RecordResult where
  | error (message : String)
  | duplicate (paymentId : String) (message : String)
  | committed (data : CommitData)
deriving DecidableEq, Repr

/-- The queryable table store: `Students`, `Payments` and `AuditLog`
rows. -/
structure LedgerState where
  students : List Student
  payments : List PaymentRow
  audit : List AuditEntry
deriving DecidableEq, Repr

/-- The outcome of one `handleRecordPayment` call: the response, the
resulting store, and whether the script lock was acquired and
released. -/
structure Outcome where
  result : RecordResult
  state : LedgerState
  lockAcquired : Bool
  lockReleased : Bool
deriving DecidableEq, Repr

/-- `logAction('PAYMENT_RECORD', user, table, recordId, details)`
(Code.gs): appends an audit row; any failure is caught inside
`logAction` and swallowed, never propagated. -/
def logAction (env : Env) (actionType user table recordId : String) (details : AuditDetails)
    (audit : List AuditEntry) : List AuditEntry :=
  if env.auditOk then
    audit ++ [{ logId := "L" ++ toString (env.now / 1000) ++ toString env.randLog
                user := if user = "" then "System" else user
                actionType := actionType
                table := table
                recordId := recordId
                details := details
                createdAt := env.now
                activeUserEmail := if env.activeUserEmail = "" then "unknown"
                                   else env.activeUserEmail }]
  else audit

/-! ## Payment recorder (`handleRecordPayment`) -/

/-- The resolved request values (Code.gs lines 1313-1318) carried from
the pre-lock steps into the critical section: `physicalReceiptNo` is
already trimmed, `idempotencyKey` already defaulted to the generated
UUID, `paymentDate` already defaulted to the current date. -/
structure ReqCtx where
  studentId : String
  amount : ℚ
  physicalReceiptNo : String
  idempotencyKey : String
  paymentDate : JSDate
  notes : String
deriving DecidableEq, Repr

def busyMessage : String :=
  "System is busy processing another payment for this student. Please wait and try again."

def requiredFieldsMessage : String :=
  "studentId, amount, and physicalReceiptNo are required"

def sameDayMessage : String :=
  "A payment for this student has already been recorded today. Use a different date or contact admin to void the existing payment."

def saveFailedMessage : String :=
  "Failed to save payment record. Please try again."

def unexpectedErrorMessage : String :=
  "Unexpected error occurred. Please try again or contact support."

/-- Steps 1-4 of `handleRecordPayment` (outside the lock): required
fields, amount validation, idempotency-key validation (returning the
existing payment as a duplicate success), receipt uniqueness. -/
def preLockChecks (env : Env) (payload : Payload) (s : LedgerState) :
    Except RecordResult ReqCtx :=
  let studentId := payload.studentId
  let amount := payload.amount
  let physicalReceiptNo := jsTrim payload.physicalReceiptNo
  let idempotencyKey := if payload.idempotencyKey = "" then env.uuid else payload.idempotencyKey
  let paymentDate := payload.paymentDate.getD env.nowDate
  let notes := jsTrim payload.notes
  -- Step 1: `!studentId || !amount || !physicalReceiptNo`
  if studentId = "" ∨ amount = none ∨ amount = some 0 ∨ physicalReceiptNo = "" then
    .error (.error requiredFieldsMessage)
  else
    -- Step 2
    let amountValidation := validatePaymentAmount amount
    if amountValidation.valid = false then .error (.error amountValidation.message)
    else
      -- Step 3
      let idemValidation := validateIdempotencyKey idempotencyKey env.now s.payments
      if idemValidation.valid = false then
        -- `if (idempotencyValidation.existingPaymentId)`: a truthiness
        -- test, false for an absent id and for an empty-string id
        match idemValidation.existingPaymentId with
        | some existingPaymentId =>
          if existingPaymentId = "" then .error (.error idemValidation.message)
          else .error (.duplicate existingPaymentId "payment already recorded")
        | none => .error (.error idemValidation.message)
      else
        -- Step 4
        let receiptValidation := validateUniqueReceiptNumber physicalReceiptNo none s.payments
        if receiptValidation.valid = false then .error (.error receiptValidation.message)
        else
          .ok { studentId := studentId
                amount := amount.getD 0
                physicalReceiptNo := physicalReceiptNo
                idempotencyKey := idempotencyKey
                paymentDate := paymentDate
                notes := notes }

/-- The in-lock idempotency re-check predicate (Code.gs lines
1378-1387): a bare key comparison, with no voided or retention-window
filter. -/
def inLockIdemPred (idempotencyKey : String) (row : PaymentRow) : Bool :=
  row.idempotencyKey == idempotencyKey

/-- The in-lock receipt re-check predicate (Code.gs lines 1390-1398):
skips voided rows, compares trim+uppercase of the stored receipt with
the uppercased (already trimmed) request receipt. -/
def inLockReceiptPred (physicalReceiptNo : String) (row : PaymentRow) : Bool :=
  !row.isVoided && jsToUpper (jsTrim row.physicalReceiptNo) == jsToUpper physicalReceiptNo

/-- The same-day duplicate predicate (Code.gs lines 1402-1409): same
student, not voided, same calendar date (`toDateString` equality). -/
def sameDayPred (studentId : String) (paymentDate : JSDate) (row : PaymentRow) : Bool :=
  row.studentId == studentId && !row.isVoided && row.paymentDate.day == paymentDate.day

/-- Step 9: `CONFIG.PAYMENT_ID_` lead + `Math.floor(now/1000)` +
random suffix. -/
def newPaymentId (env : Env) : String :=
  "P" ++ toString (env.now / 1000) ++ toString env.randPid

/-- The row appended by step 10 of `handleRecordPayment` (the
`paySheet.appendRow` argument list, in order).  Note it has no field
for the system-generated receipt reference. -/
def commitRow (env : Env) (session : Session) (ctx : ReqCtx) (student : Student) : PaymentRow :=
  { paymentId := newPaymentId env
    studentId := ctx.studentId
    sectionId := student.sectionId
    amount := ctx.amount
    paymentDate := ctx.paymentDate
    enteredBy := session.user
    createdAt := env.now
    physicalReceiptNo := ctx.physicalReceiptNo
    receiptUrl := ""
    idempotencyKey := ctx.idempotencyKey
    isVoided := false
    collectionDayId := ""
    notes := ctx.notes }

/-- The details object of the step-11 audit entry. -/
def commitDetails (ctx : ReqCtx) (student : Student) (totalPaid newTotal : ℚ)
    (systemReceiptNo : String) : AuditDetails :=
  { studentId := ctx.studentId
    studentName := student.fullName
    amount := ctx.amount
    physicalReceiptNo := ctx.physicalReceiptNo
    systemReceiptNo := systemReceiptNo
    paymentDate := ctx.paymentDate
    previousTotal := totalPaid
    newTotal := newTotal
    idempotencyKey := ctx.idempotencyKey }

/-- The success response of the committed path. -/
def commitResponse (env : Env) (ctx : ReqCtx) (student : Student) (totalPaid newTotal : ℚ)
    (systemReceiptNo : String) : CommitData :=
  { paymentId := newPaymentId env
    receiptNo := systemReceiptNo
    physicalReceiptNo := ctx.physicalReceiptNo
    studentName := student.fullName
    amount := ctx.amount
    paymentDate := ctx.paymentDate
    previousTotal := totalPaid
    newTotal := newTotal }

/-- Steps 6-11 of `handleRecordPayment`: the critical section entered
with the script lock held.  Every branch mirrors one source exit path;
each carries `lockReleased := true` because the source calls
`lock.releaseLock()` on it (directly, in the `writeError` catch, or in
the outermost catch). -/
def inLock (env : Env) (session : Session) (ctx : ReqCtx) (s : LedgerState) : Outcome :=
  if env.readThrows then
    -- an unexpected exception in the critical section: outermost catch
    ⟨.error unexpectedErrorMessage, s, true, true⟩
  else
    -- Step 6
    match validateStudentPaymentEligibility ctx.studentId ctx.amount session
        s.students s.payments with
    | .invalid message => ⟨.error message, s, true, true⟩
    | .valid _ student totalPaid newTotal =>
      -- Step 7: re-check idempotency key within lock
      match s.payments.find? (inLockIdemPred ctx.idempotencyKey) with
      | some row =>
        ⟨.duplicate row.paymentId "payment already recorded (detected in lock)", s, true, true⟩
      | none =>
        -- re-check receipt number within lock
        match s.payments.find? (inLockReceiptPred ctx.physicalReceiptNo) with
        | some row =>
          ⟨.error (receiptUsedMessage ctx.physicalReceiptNo row.paymentId), s, true, true⟩
        | none =>
          -- Step 8: same-day duplicate check
          match s.payments.find? (sameDayPred ctx.studentId ctx.paymentDate) with
          | some _ => ⟨.error sameDayMessage, s, true, true⟩
          | none =>
            -- Step 9: identifiers
            let systemReceiptNo :=
              generateUniqueReceiptNumber env.randSeqs env.now ctx.paymentDate s.payments
            -- Step 10: append (the only mutation; a failure is the
            -- writeError catch, nothing partially written)
            if env.appendOk = false then ⟨.error saveFailedMessage, s, true, true⟩
            else
              -- Step 11: audit entry, then release and respond
              let audit2 := logAction env "PAYMENT_RECORD" session.user "Payments"
                (newPaymentId env) (commitDetails ctx student totalPaid newTotal systemReceiptNo)
                s.audit
              ⟨.committed (commitResponse env ctx student totalPaid newTotal systemReceiptNo),
               ⟨s.students, s.payments ++ [commitRow env session ctx student], audit2⟩,
               true, true⟩

/-- `handleRecordPayment(payload)` (Code.gs lines 1307-1472).
`session?` is the result of `validateSession(payload.token)` (the
external auth collaborator). -/
def handleRecordPayment (env : Env) (session? : Option Session) (payload : Payload)
    (s : LedgerState) : Outcome :=
  match session? with
  | none => ⟨.error "unauthorized", s, false, false⟩
  | some session =>
    match preLockChecks env payload s with
    | .error r => ⟨r, s, false, false⟩
    | .ok ctx =>
      -- Step 5: acquire enhanced lock with retry
      match (acquireLockWithRetry (recordPaymentLockKey ctx.studentId) 3 env.waitOk).fst with
      | none => ⟨.error busyMessage, s, false, false⟩
      | some _ => inLock env session ctx s

/-! ## Helper lemmas -/

theorem sumNonVoidedFor_append (sid : String) (l1 l2 : List PaymentRow) :
    sumNonVoidedFor sid (l1 ++ l2) = sumNonVoidedFor sid l1 + sumNonVoidedFor sid l2 := by
  simp [sumNonVoidedFor_eq_sum, List.filter_append]

/-- Inversion of the pre-lock stage: reaching the lock means the
required fields were present, the amount, idempotency key and receipt
validations all passed, and the context carries the resolved request
values. -/
theorem preLock_ok_inversion {env : Env} {payload : Payload} {s : LedgerState} {ctx : ReqCtx}
    (h : preLockChecks env payload s = .ok ctx) :
    ¬(payload.studentId = "" ∨ payload.amount = none ∨ payload.amount = some 0 ∨
        jsTrim payload.physicalReceiptNo = "") ∧
    (validatePaymentAmount payload.amount).valid = true ∧
    (validateIdempotencyKey (if payload.idempotencyKey = "" then env.uuid
        else payload.idempotencyKey) env.now s.payments).valid = true ∧
    (validateUniqueReceiptNumber (jsTrim payload.physicalReceiptNo) none s.payments).valid = true ∧
    ctx = ⟨payload.studentId, payload.amount.getD 0, jsTrim payload.physicalReceiptNo,
      if payload.idempotencyKey = "" then env.uuid else payload.idempotencyKey,
      payload.paymentDate.getD env.nowDate, jsTrim payload.notes⟩ := by
  simp only [preLockChecks] at h
  by_cases h1 : payload.studentId = "" ∨ payload.amount = none ∨ payload.amount = some 0 ∨
      jsTrim payload.physicalReceiptNo = ""
  · simp [h1] at h
  rw [if_neg h1] at h
  by_cases h2 : (validatePaymentAmount payload.amount).valid = false
  · simp [h2] at h
  rw [if_neg h2] at h
  by_cases h3 : (validateIdempotencyKey (if payload.idempotencyKey = "" then env.uuid
      else payload.idempotencyKey) env.now s.payments).valid = false
  · rw [if_pos h3] at h
    cases hx : (validateIdempotencyKey (if payload.idempotencyKey = "" then env.uuid
        else payload.idempotencyKey) env.now s.payments).existingPaymentId with
    | none => simp [hx] at h
    | some pid => by_cases hpid : pid = "" <;> simp [hx, hpid] at h
  rw [if_neg h3] at h
  by_cases h4 : (validateUniqueReceiptNumber (jsTrim payload.physicalReceiptNo) none
      s.payments).valid = false
  · simp [h4] at h
  rw [if_neg h4] at h
  simp only [Except.ok.injEq] at h
  refine ⟨h1, ?_, ?_, ?_, h.symm⟩
  · exact Bool.not_eq_false _ |>.mp h2
  · exact Bool.not_eq_false _ |>.mp h3
  · exact Bool.not_eq_false _ |>.mp h4

/-- Inversion of a passed idempotency-key validation: the key is
nonempty and the retention-window scan found nothing. -/
theorem validateIdempotencyKey_valid_inversion {key : String} {now : Int}
    {payments : List PaymentRow}
    (h : (validateIdempotencyKey key now payments).valid = true) :
    jsTrim key ≠ "" ∧
    payments.find? (idemFreshPred key (now - retentionMs)) = none := by
  simp only [validateIdempotencyKey] at h
  by_cases hk : jsTrim key = ""
  · simp [hk] at h
  rw [if_neg hk] at h
  cases hf : payments.find? (idemFreshPred key (now - retentionMs)) with
  | some row => rw [hf] at h; simp at h
  | none => exact ⟨hk, rfl⟩

/-- A singleton scan: the sum for a matching, non-voided row is the
row's amount. -/
theorem sumNonVoidedFor_singleton_match (sid : String) (row : PaymentRow)
    (h1 : row.studentId = sid) (h2 : row.isVoided = false) :
    sumNonVoidedFor sid [row] = row.amount := by
  simp [sumNonVoidedFor_eq_sum, List.filter, h1, h2]

/-- The pre-lock stage never produces a committed response. -/
theorem preLock_no_committed {env : Env} {payload : Payload} {s : LedgerState}
    {data : CommitData} : preLockChecks env payload s ≠ .error (.committed data) := by
  intro hcon
  simp only [preLockChecks] at hcon
  repeat' split at hcon
  all_goals exact absurd hcon (by simp)

/-- Unfolding: a pre-lock failure is the whole response, without the
lock ever being acquired. -/
theorem handle_preLock_error {env : Env} {session : Session} {payload : Payload}
    {s : LedgerState} {r : RecordResult} (hpre : preLockChecks env payload s = .error r) :
    handleRecordPayment env (some session) payload s = ⟨r, s, false, false⟩ := by
  simp [handleRecordPayment, hpre]

/-- Unfolding: lock-acquisition failure yields the busy response. -/
theorem handle_lock_busy {env : Env} {session : Session} {payload : Payload}
    {s : LedgerState} {ctx : ReqCtx} (hpre : preLockChecks env payload s = .ok ctx)
    (hl : (acquireLockWithRetry (recordPaymentLockKey ctx.studentId) 3 env.waitOk).fst = none) :
    handleRecordPayment env (some session) payload s = ⟨.error busyMessage, s, false, false⟩ := by
  simp [handleRecordPayment, hpre, hl]

/-- Unfolding: with the pre-lock stage passed and the lock acquired,
the outcome is that of the critical section. -/
theorem handle_locked {env : Env} {session : Session} {payload : Payload}
    {s : LedgerState} {ctx : ReqCtx} {l : LockResource}
    (hpre : preLockChecks env payload s = .ok ctx)
    (hl : (acquireLockWithRetry (recordPaymentLockKey ctx.studentId) 3 env.waitOk).fst
      = some l) :
    handleRecordPayment env (some session) payload s = inLock env session ctx s := by
  simp [handleRecordPayment, hpre, hl]

/-- Inversion of the critical section: a committed response means no
exception, eligibility passed, both in-lock re-checks and the same-day
check found nothing, the append succeeded, and the outcome is exactly
the commit outcome. -/
theorem inLock_committed_inversion {env : Env} {session : Session} {ctx : ReqCtx}
    {s : LedgerState} {data : CommitData}
    (h : (inLock env session ctx s).result = .committed data) :
    env.readThrows = false ∧ env.appendOk = true ∧
    ∃ m student totalPaid newTotal,
      validateStudentPaymentEligibility ctx.studentId ctx.amount session s.students s.payments
        = .valid m student totalPaid newTotal ∧
      s.payments.find? (inLockIdemPred ctx.idempotencyKey) = none ∧
      s.payments.find? (inLockReceiptPred ctx.physicalReceiptNo) = none ∧
      s.payments.find? (sameDayPred ctx.studentId ctx.paymentDate) = none ∧
      data = commitResponse env ctx student totalPaid newTotal
        (generateUniqueReceiptNumber env.randSeqs env.now ctx.paymentDate s.payments) ∧
      inLock env session ctx s =
        ⟨.committed data,
         ⟨s.students, s.payments ++ [commitRow env session ctx student],
          logAction env "PAYMENT_RECORD" session.user "Payments" (newPaymentId env)
            (commitDetails ctx student totalPaid newTotal
              (generateUniqueReceiptNumber env.randSeqs env.now ctx.paymentDate s.payments))
            s.audit⟩, true, true⟩ := by
  by_cases hrt : env.readThrows = true
  · simp [inLock, hrt] at h
  cases helig : validateStudentPaymentEligibility ctx.studentId ctx.amount session
      s.students s.payments with
  | invalid m => simp [inLock, hrt, helig] at h
  | valid m student totalPaid newTotal =>
    cases hidem : s.payments.find? (inLockIdemPred ctx.idempotencyKey) with
    | some row => simp [inLock, hrt, helig, hidem] at h
    | none =>
      cases hrcpt : s.payments.find? (inLockReceiptPred ctx.physicalReceiptNo) with
      | some row => simp [inLock, hrt, helig, hidem, hrcpt] at h
      | none =>
        cases hday : s.payments.find? (sameDayPred ctx.studentId ctx.paymentDate) with
        | some row => simp [inLock, hrt, helig, hidem, hrcpt, hday] at h
        | none =>
          by_cases happ : env.appendOk = false
          · simp [inLock, hrt, helig, hidem, hrcpt, hday, happ] at h
          · have hout : inLock env session ctx s =
                ⟨.committed (commitResponse env ctx student totalPaid newTotal
                    (generateUniqueReceiptNumber env.randSeqs env.now ctx.paymentDate
                      s.payments)),
                 ⟨s.students, s.payments ++ [commitRow env session ctx student],
                  logAction env "PAYMENT_RECORD" session.user "Payments" (newPaymentId env)
                    (commitDetails ctx student totalPaid newTotal
                      (generateUniqueReceiptNumber env.randSeqs env.now ctx.paymentDate
                        s.payments))
                    s.audit⟩, true, true⟩ := by
              simp [inLock, hrt, helig, hidem, hrcpt, hday, happ]
            rw [hout] at h
            simp only [RecordResult.committed.injEq] at h
            refine ⟨Bool.not_eq_true _ |>.mp hrt, Bool.not_eq_false _ |>.mp happ,
              m, student, totalPaid, newTotal, rfl, rfl, rfl, rfl, h.symm, ?_⟩
            rw [hout, h]

/-- Inversion of `handleRecordPayment`: a committed response means
the pre-lock stage produced a context, the lock was acquired, and the
outcome is that of the critical section. -/
theorem handle_committed_inversion {env : Env} {session : Session} {payload : Payload}
    {s : LedgerState} {data : CommitData}
    (h : (handleRecordPayment env (some session) payload s).result = .committed data) :
    ∃ ctx, preLockChecks env payload s = .ok ctx ∧
      (acquireLockWithRetry (recordPaymentLockKey ctx.studentId) 3 env.waitOk).fst.isSome ∧
      handleRecordPayment env (some session) payload s = inLock env session ctx s := by
  cases hpre : preLockChecks env payload s with
  | error r =>
    rw [handle_preLock_error hpre] at h
    cases r with
    | committed d => exact absurd hpre preLock_no_committed
    | error m => simp at h
    | duplicate p m => simp at h
  | ok ctx =>
    cases hl : (acquireLockWithRetry (recordPaymentLockKey ctx.studentId) 3 env.waitOk).fst with
    | none => rw [handle_lock_busy hpre hl] at h; simp at h
    | some l => exact ⟨ctx, rfl, by rw [hl]; rfl, handle_locked hpre hl⟩

/-- A generated payment id is never the empty string (it starts with
the configured `P` lead). -/
theorem newPaymentId_ne_empty (env : Env) : newPaymentId env ≠ "" := by
  intro hcon
  have hlen := congrArg String.length hcon
  simp [newPaymentId, String.length_append] at hlen
  exact absurd hlen.1.1 (by decide)

/-- The receipt-conflict scan predicate, in propositional form. -/
theorem receiptConflictPred_iff (clean : String) (excl : Option String) (row : PaymentRow) :
    receiptConflictPred clean excl row = true ↔
      row.isVoided = false ∧ (∀ ex, excl = some ex → row.paymentId ≠ ex) ∧
        jsToUpper (jsTrim row.physicalReceiptNo) = clean := by
  cases excl with
  | none =>
    simp [receiptConflictPred, Bool.and_eq_true, Bool.not_eq_true', beq_iff_eq, and_assoc]
  | some e =>
    simp only [receiptConflictPred, Bool.and_eq_true, Bool.not_eq_true', beq_iff_eq,
      beq_eq_false_iff_ne, ne_eq, Option.some.injEq]
    constructor
    · rintro ⟨⟨hv, hne⟩, hup⟩
      exact ⟨hv, fun ex hex => hex ▸ hne, hup⟩
    · rintro ⟨hv, hne, hup⟩
      exact ⟨⟨hv, hne e rfl⟩, hup⟩

/-- Characterization of `validateUniqueReceiptNumber`: it passes
exactly when the receipt is nonempty after trimming and no non-voided,
non-excluded payment row carries the same receipt number up to
trimming and case. -/
theorem validateUniqueReceiptNumber_valid_iff (receiptNo : String) (excl : Option String)
    (payments : List PaymentRow) :
    (validateUniqueReceiptNumber receiptNo excl payments).valid = true ↔
      (jsTrim receiptNo ≠ "" ∧ ∀ row ∈ payments, row.isVoided = false →
        (∀ ex, excl = some ex → row.paymentId ≠ ex) →
        jsToUpper (jsTrim row.physicalReceiptNo) ≠ jsToUpper (jsTrim receiptNo)) := by
  by_cases hk : jsTrim receiptNo = ""
  · simp [validateUniqueReceiptNumber, hk]
  · cases hf : payments.find? (receiptConflictPred (jsToUpper (jsTrim receiptNo)) excl) with
    | some row =>
      simp only [validateUniqueReceiptNumber, if_neg hk, hf]
      refine iff_of_false (by simp) ?_
      rintro ⟨-, hall⟩
      have hp := List.find?_some hf
      have hmem := List.mem_of_find?_eq_some hf
      rw [receiptConflictPred_iff] at hp
      exact hall row hmem hp.1 hp.2.1 hp.2.2
    | none =>
      simp only [validateUniqueReceiptNumber, if_neg hk, hf]
      refine iff_of_true trivial ⟨hk, ?_⟩
      intro row hmem hv hex heq
      rw [List.find?_eq_none] at hf
      have hnc := hf row hmem
      rw [receiptConflictPred_iff] at hnc
      exact hnc ⟨hv, hex, heq⟩

/-! ## Concrete scenario fixtures -/

/-- A base environment: lock always available, append and audit
succeed, no exceptions; `Math.random` draws fixed. -/
def envC : Env :=
  { now := 1700000000000, nowDate := ⟨19000, 0⟩, uuid := "UUID1", randPid := 42,
    randSeqs := fun _ => 7, randLog := 9, waitOk := fun _ => true, appendOk := true,
    auditOk := true, readThrows := false, activeUserEmail := "a@b.c" }

/-- An Admin session (no section restriction). -/
def sessC : Session := { user := "alice", role := "Admin", department := "", «section» := "" }

/-- A student row as the code writes it: Status `Active`, a CreatedAt
date, and expected amount 100 in column 6. -/
def stuC : Student :=
  { studentId := "S1", studentNo := "1", fullName := "Ana A", sectionId := "SEC1",
    status := "Active", createdAt := ⟨18000, 0⟩, expectedAmount := 100 }

/-- Store with one student and no payments. -/
def sC : LedgerState := { students := [stuC], payments := [], audit := [] }

/-- A well-formed request: amount 20, receipt AB-1, key K1. -/
def payloadC : Payload :=
  { studentId := "S1", amount := some 20, physicalReceiptNo := "AB-1",
    idempotencyKey := "K1", paymentDate := some ⟨19000, 100⟩, notes := "" }

/-- The resolved context of `payloadC` under `envC`. -/
def ctxC : ReqCtx :=
  { studentId := "S1", amount := 20, physicalReceiptNo := "AB-1", idempotencyKey := "K1",
    paymentDate := ⟨19000, 100⟩, notes := "" }

/-- `envC` with the lock never obtainable. -/
def envBusy : Env :=
  { envC with waitOk := fun _ => false }

/-- An existing committed payment: student S1, receipt AB-1, key KOLD,
dated day 18000, created at time 1000. -/
def row6 : PaymentRow :=
  { paymentId := "P1", studentId := "S1", sectionId := "SEC1", amount := 10,
    paymentDate := ⟨18000, 0⟩, enteredBy := "bob", createdAt := 1000,
    physicalReceiptNo := "AB-1", receiptUrl := "", idempotencyKey := "KOLD",
    isVoided := false, collectionDayId := "", notes := "" }

/-- Store holding `row6` non-voided. -/
def s6 : LedgerState := { students := [stuC], payments := [row6], audit := [] }

/-- Store holding `row6` voided. -/
def s6v : LedgerState :=
  { students := [stuC], payments := [{ row6 with isVoided := true }], audit := [] }

/-- A request reusing receipt `AB-1` (up to trim and case) under a
fresh idempotency key. -/
def payload6 : Payload :=
  { studentId := "S1", amount := some 20, physicalReceiptNo := " ab-1 ",
    idempotencyKey := "K2", paymentDate := some ⟨19000, 100⟩, notes := "" }

/-- The commit produced by `payload6` once `row6` is voided. -/
def data6v : CommitData :=
  { paymentId := "P170000000042", receiptNo := "R-19000-007", physicalReceiptNo := "ab-1",
    studentName := "Ana A", amount := 20, paymentDate := ⟨19000, 100⟩,
    previousTotal := 0, newTotal := 20 }

/-- An existing payment dated day 19000 (time of day 500ms), receipt
XY-9. -/
def row7 : PaymentRow := { row6 with physicalReceiptNo := "XY-9", paymentDate := ⟨19000, 500⟩ }

/-- Store holding `row7`. -/
def s7 : LedgerState := { students := [stuC], payments := [row7], audit := [] }

/-- A request for the next calendar day, 19001. -/
def payload7next : Payload :=
  { payload6 with physicalReceiptNo := "AB-1", paymentDate := some ⟨19001, 100⟩ }

/-- The commit produced by `payload7next` on `s7`. -/
def data7 : CommitData :=
  { paymentId := "P170000000042", receiptNo := "R-19001-007", physicalReceiptNo := "AB-1",
    studentName := "Ana A", amount := 20, paymentDate := ⟨19001, 100⟩,
    previousTotal := 10, newTotal := 30 }

/-- A same-calendar-day request context (day 19000, different time of
day, different amount and receipt than `row7`). -/
def ctx7 : ReqCtx :=
  { studentId := "S1", amount := 15, physicalReceiptNo := "AB-1", idempotencyKey := "K2",
    paymentDate := ⟨19000, 999⟩, notes := "" }

/-- A voided payment holding idempotency key K1. -/
def rowV : PaymentRow :=
  { paymentId := "Pold", studentId := "S1", sectionId := "SEC1", amount := 10,
    paymentDate := ⟨18000, 0⟩, enteredBy := "bob", createdAt := 1699999999000,
    physicalReceiptNo := "R1", receiptUrl := "", idempotencyKey := "K1",
    isVoided := true, collectionDayId := "", notes := "" }

/-- Store holding only the voided `rowV`. -/
def sV : LedgerState := { students := [stuC], payments := [rowV], audit := [] }

/-- An existing non-voided payment of 80 dated day 19000. -/
def rowB80 : PaymentRow := { row7 with amount := 80, paymentDate := ⟨19000, 0⟩ }

/-- Store with student S1 (expected 100) already paid 80. -/
def sB : LedgerState := { students := [stuC], payments := [rowB80], audit := [] }

/-- A request of 20 on a fresh day: reaches the boundary exactly. -/
def payload20 : Payload := payload7next

/-- A request of 25: would exceed the expected amount. -/
def payload25 : Payload := { payload20 with amount := some 25 }

/-- The commit of `payload25` on `sB`: the over-ceiling new total
105. -/
def dataB25 : CommitData :=
  { paymentId := "P170000000042", receiptNo := "R-19001-007", physicalReceiptNo := "AB-1",
    studentName := "Ana A", amount := 25, paymentDate := ⟨19001, 100⟩,
    previousTotal := 80, newTotal := 105 }

/-- The commit produced by `payloadC` on `sC`. -/
def dataC : CommitData :=
  { paymentId := "P170000000042", receiptNo := "R-19000-007", physicalReceiptNo := "AB-1",
    studentName := "Ana A", amount := 20, paymentDate := ⟨19000, 100⟩,
    previousTotal := 0, newTotal := 20 }

/-! ## Claim theorems -/

/-- Claim C4: every exit path of `handleRecordPayment` that runs after
lock acquisition — success, any in-lock validation failure
(eligibility, idempotency re-check, receipt re-check, same-day
duplicate), ledger-write failure, or a thrown exception — releases the
lock before returning: the lock-released flag of the outcome always
equals the lock-acquired flag, so no path acquires without releasing
and a subsequent request for the same student is never perpetually
blocked. -/
theorem c4_lock_released_on_every_path (env : Env) (session? : Option Session)
    (payload : Payload) (s : LedgerState) :
    (handleRecordPayment env session? payload s).lockReleased =
      (handleRecordPayment env session? payload s).lockAcquired := by
  cases session? with
  | none => rfl
  | some session =>
    cases hpre : preLockChecks env payload s with
    | error r => rw [handle_preLock_error hpre]
    | ok ctx =>
      cases hl : (acquireLockWithRetry (recordPaymentLockKey ctx.studentId) 3
          env.waitOk).fst with
      | none => rw [handle_lock_busy hpre hl]
      | some l =>
        rw [handle_locked hpre hl]
        unfold inLock
        repeat' split
        all_goals rfl

/-- Claim C3 counterexample: the claim asserts that record-payment
attempts for different students take distinct per-student locks and
proceed in parallel with no global lock.  In the source,
`acquireLockWithRetry` calls `LockService.getScriptLock()`, so the
lock keys `recordPayment_S1` and `recordPayment_S2`, although
distinct, both acquire the one script-global lock. -/
theorem c3_per_student_lock_counterexample :
    recordPaymentLockKey "S1" ≠ recordPaymentLockKey "S2" ∧
    (acquireLockWithRetry (recordPaymentLockKey "S1") 3 (fun _ => true)).fst
      = (acquireLockWithRetry (recordPaymentLockKey "S2") 3 (fun _ => true)).fst ∧
    (acquireLockWithRetry (recordPaymentLockKey "S1") 3 (fun _ => true)).fst
      = some LockResource.script := by
  exact ⟨by decide, rfl, rfl⟩

/-- Claim C3, amended: two concurrent record-payment attempts for the
same student are strictly serialized, but by the single script-global
lock rather than a per-student lock: the acquisition outcome does not
depend on the per-student lock key at all, and any successful
acquisition holds the one script-global lock, so attempts for
different students contend on the same lock and are serialized too,
not run in parallel. -/
theorem c3_global_lock_amended :
    (∀ (studentA studentB : String) (w : Nat → Bool),
      acquireLockWithRetry (recordPaymentLockKey studentA) 3 w
        = acquireLockWithRetry (recordPaymentLockKey studentB) 3 w) ∧
    (∀ (studentId : String) (w : Nat → Bool),
      (acquireLockWithRetry (recordPaymentLockKey studentId) 3 w).fst = none ∨
      (acquireLockWithRetry (recordPaymentLockKey studentId) 3 w).fst
        = some LockResource.script) := by
  constructor
  · intro a b w; rfl
  · intro sid w
    cases h : (acquireLockWithRetry (recordPaymentLockKey sid) 3 w).fst with
    | none => exact Or.inl rfl
    | some l => cases l; exact Or.inr rfl

/-- Claim C8: `validatePaymentAmount` returns invalid with a distinct
human-readable reason for every amount that is non-numeric, not
greater than zero, below the minimum 5, above the maximum 10000, or
not an exact multiple of 5, and returns valid for every amount
satisfying all of these bounds; concretely, 3, 17 and 10005 are
invalid and 50 is valid.  The five failure messages are pairwise
distinct. -/
theorem c8_validate_amount :
    (∀ a : Option ℚ, (validatePaymentAmount a).valid = true ↔
      ∃ x, a = some x ∧ PAYMENT_AMOUNT_MIN ≤ x ∧ x ≤ MAX_PAYMENT_AMOUNT ∧
        ∃ k : ℤ, x = 5 * k) ∧
    validatePaymentAmount none = ⟨false, "Amount must be a valid number"⟩ ∧
    validatePaymentAmount (some (-7)) = ⟨false, "Amount must be greater than zero"⟩ ∧
    validatePaymentAmount (some 3) = ⟨false, "Minimum amount is 5"⟩ ∧
    validatePaymentAmount (some 10005) = ⟨false, "Maximum amount is 10000"⟩ ∧
    validatePaymentAmount (some 17) = ⟨false, "Amount must be a multiple of 5"⟩ ∧
    validatePaymentAmount (some 50) = ⟨true, "Valid amount"⟩ ∧
    ["Amount must be a valid number", "Amount must be greater than zero",
      "Minimum amount is 5", "Maximum amount is 10000",
      "Amount must be a multiple of 5"].Nodup := by
  refine ⟨?_, by decide, by decide, by decide, by decide, by decide, by decide, by decide⟩
  intro a
  cases a with
  | none => simp [validatePaymentAmount]
  | some x =>
    simp only [validatePaymentAmount, PAYMENT_AMOUNT_MIN, MAX_PAYMENT_AMOUNT,
      Option.some.injEq]
    split_ifs with h0 hneg hmin hmax hmul
    · refine iff_of_false (by decide) ?_
      rintro ⟨y, rfl, h5, _, _⟩; rw [h0] at h5; linarith
    · refine iff_of_false (by decide) ?_
      rintro ⟨y, rfl, h5, _, _⟩; linarith
    · refine iff_of_false (by decide) ?_
      rintro ⟨y, rfl, h5, _, _⟩; linarith
    · refine iff_of_false (by decide) ?_
      rintro ⟨y, rfl, _, h10, _⟩; linarith
    · exact iff_of_true rfl ⟨x, rfl, le_of_not_lt hmin, le_of_not_lt hmax,
        (isMultipleOfUnit_iff x).mp hmul⟩
    · refine iff_of_false (by decide) ?_
      rintro ⟨y, rfl, _, _, hk⟩
      exact hmul ((isMultipleOfUnit_iff x).mpr hk)

/-- Claim C9: when the lock cannot be obtained,
`acquireLockWithRetry` sleeps the increasing attempt-indexed backoffs
100ms then 200ms between its 3 attempts and returns no lock (the JS
`null`, modelled by `none`) instead of a thrown error, and
`handleRecordPayment` then answers with the system-busy error response
instead of crashing. -/
theorem c9_lock_retry_busy :
    (∀ (key : String) (w : Nat → Bool), (∀ i, i < 3 → w i = false) →
      acquireLockWithRetry key 3 w = (none, [100, 200])) ∧
    (∀ (env : Env) (session : Session) (payload : Payload) (s : LedgerState) (ctx : ReqCtx),
      preLockChecks env payload s = .ok ctx →
      (∀ i, i < 3 → env.waitOk i = false) →
      handleRecordPayment env (some session) payload s
        = ⟨.error busyMessage, s, false, false⟩) := by
  have hmain : ∀ (key : String) (w : Nat → Bool), (∀ i, i < 3 → w i = false) →
      acquireLockWithRetry key 3 w = (none, [100, 200]) := by
    intro key w hw
    have h0 := hw 0 (by omega)
    have h1 := hw 1 (by omega)
    have h2 := hw 2 (by omega)
    simp [acquireLockWithRetry, lockLoop, h0, h1, h2]
  refine ⟨hmain, ?_⟩
  intro env session payload s ctx hpre hw
  exact handle_lock_busy hpre (by rw [hmain _ env.waitOk hw])

/-- Witness for C9: a concrete valid request whose lock attempts all
fail receives the busy response. -/
theorem c9_lock_retry_busy_witness :
    handleRecordPayment envBusy (some sessC) payloadC sC
      = ⟨.error busyMessage, sC, false, false⟩ :=
  c9_lock_retry_busy.2 envBusy sessC payloadC sC ctxC rfl (fun _ _ => rfl)

/-- Claim C6: receipt uniqueness.  In general,
`validateUniqueReceiptNumber` passes exactly when no non-voided,
non-excluded payment carries the same receipt number compared trimmed
and case-insensitively.  Concretely: with `row6` (receipt `AB-1`,
id `P1`, non-voided) in the ledger, a request with receipt ` ab-1 `
and a different idempotency key is rejected with an error naming the
conflicting payment id `P1` and nothing is written; once that payment
is voided the same receipt number is accepted again and the payment
commits. -/
theorem c6_receipt_uniqueness :
    (∀ (receiptNo : String) (excl : Option String) (payments : List PaymentRow),
      (validateUniqueReceiptNumber receiptNo excl payments).valid = true ↔
        (jsTrim receiptNo ≠ "" ∧ ∀ row ∈ payments, row.isVoided = false →
          (∀ ex, excl = some ex → row.paymentId ≠ ex) →
          jsToUpper (jsTrim row.physicalReceiptNo) ≠ jsToUpper (jsTrim receiptNo))) ∧
    row6.physicalReceiptNo = "AB-1" ∧ row6.isVoided = false ∧
    payload6.physicalReceiptNo = " ab-1 " ∧ payload6.idempotencyKey ≠ row6.idempotencyKey ∧
    (handleRecordPayment envC (some sessC) payload6 s6).result
      = .error (receiptUsedMessage "ab-1" "P1") ∧
    (handleRecordPayment envC (some sessC) payload6 s6).state = s6 ∧
    s6v.payments = [{ row6 with isVoided := true }] ∧
    (handleRecordPayment envC (some sessC) payload6 s6v).result = .committed data6v :=
  ⟨validateUniqueReceiptNumber_valid_iff, by decide, by decide, by decide, by decide,
    by decide, by decide, by decide, by decide⟩

/-- Claim C7: the same-day duplicate rule.  In general, once the
critical section is reached with eligibility passed and both in-lock
re-checks clear, a non-voided payment of the same student on the same
calendar date — whatever the request's amount or receipt number —
makes the recorder reject with the same-day error and leave the store
unchanged.  Concretely, on `s7` (payment dated day 19000) a request
dated day 19001 commits. -/
theorem c7_same_day_rule :
    (∀ (env : Env) (session : Session) (ctx : ReqCtx) (s : LedgerState) (row : PaymentRow),
      env.readThrows = false →
      (validateStudentPaymentEligibility ctx.studentId ctx.amount session
          s.students s.payments).isValid = true →
      s.payments.find? (inLockIdemPred ctx.idempotencyKey) = none →
      s.payments.find? (inLockReceiptPred ctx.physicalReceiptNo) = none →
      s.payments.find? (sameDayPred ctx.studentId ctx.paymentDate) = some row →
      (inLock env session ctx s).result = .error sameDayMessage ∧
      (inLock env session ctx s).state = s) ∧
    row7.studentId = "S1" ∧ row7.isVoided = false ∧ row7.paymentDate.day = 19000 ∧
    (payload7next.paymentDate.getD envC.nowDate).day = 19001 ∧
    (handleRecordPayment envC (some sessC) payload7next s7).result = .committed data7 := by
  refine ⟨?_, by decide, by decide, by decide, by decide, by decide⟩
  intro env session ctx s row hrt hel hidem hrcpt hday
  cases helig : validateStudentPaymentEligibility ctx.studentId ctx.amount session
      s.students s.payments with
  | invalid msg =>
    rw [helig] at hel
    simp [EligibilityValidation.isValid] at hel
  | valid m student totalPaid newTotal =>
    refine ⟨?_, ?_⟩ <;> simp [inLock, hrt, helig, hidem, hrcpt, hday]

/-- Witness for C7: a same-day request with a different amount (15)
and receipt (AB-1) than the existing payment is rejected inside the
lock with the same-day error. -/
theorem c7_same_day_rule_witness :
    (inLock envC sessC ctx7 s7).result = .error sameDayMessage ∧
    (inLock envC sessC ctx7 s7).state = s7 :=
  c7_same_day_rule.1 envC sessC ctx7 s7 row7 rfl (by decide) (by decide) (by decide)
    (by decide)

/-- Claim C5 counterexample: the claim says a key matching only a
voided payment is treated as fresh so that a new payment commits.  On
`sV`, whose only row is the voided `rowV` with key K1, the pre-lock
check indeed treats K1 as fresh, but the in-lock re-check (which scans
with no voided or retention filter) matches the voided row and the
recorder answers `duplicate` with the old payment id `Pold` instead of
committing a new payment. -/
theorem c5_voided_key_counterexample :
    rowV.isVoided = true ∧ rowV.idempotencyKey = "K1" ∧
    payloadC.idempotencyKey = "K1" ∧
    (validateIdempotencyKey "K1" envC.now sV.payments).valid = true ∧
    (handleRecordPayment envC (some sessC) payloadC sV).result
      = .duplicate "Pold" "payment already recorded (detected in lock)" ∧
    (handleRecordPayment envC (some sessC) payloadC sV).state = sV := by decide

/-- Claim C5, amended: only the pre-lock `validateIdempotencyKey`
check restricts itself to non-voided payments created within the
retention window; the in-lock re-check matches any payment row with
the key, voided or not, of any age, and returns that payment as a
duplicate rather than committing a new one. -/
theorem c5_idempotency_window_amended :
    (∀ (key : String) (now : Int) (payments : List PaymentRow),
      jsTrim key ≠ "" →
      ((validateIdempotencyKey key now payments).valid = true ↔
        ∀ row ∈ payments, row.isVoided = false → now - retentionMs < row.createdAt →
          row.idempotencyKey ≠ key)) ∧
    (∀ (key : String) (row : PaymentRow) (payments : List PaymentRow),
      row ∈ payments → row.idempotencyKey = key →
      (payments.find? (inLockIdemPred key)).isSome) ∧
    (∀ (env : Env) (session : Session) (ctx : ReqCtx) (s : LedgerState) (row : PaymentRow),
      env.readThrows = false →
      (validateStudentPaymentEligibility ctx.studentId ctx.amount session
          s.students s.payments).isValid = true →
      s.payments.find? (inLockIdemPred ctx.idempotencyKey) = some row →
      (inLock env session ctx s).result
          = .duplicate row.paymentId "payment already recorded (detected in lock)" ∧
      (inLock env session ctx s).state = s) := by
  refine ⟨?_, ?_, ?_⟩
  · intro key now payments hk
    constructor
    · intro h row hmem hv hc heq
      obtain ⟨-, hfind⟩ := validateIdempotencyKey_valid_inversion h
      rw [List.find?_eq_none] at hfind
      exact hfind row hmem (by simp [idemFreshPred, hv, hc, heq])
    · intro hall
      simp only [validateIdempotencyKey, if_neg hk]
      cases hf : payments.find? (idemFreshPred key (now - retentionMs)) with
      | some row =>
        have hp := List.find?_some hf
        have hmem := List.mem_of_find?_eq_some hf
        simp only [idemFreshPred, Bool.and_eq_true, Bool.not_eq_true', decide_eq_true_eq,
          beq_iff_eq] at hp
        exact absurd hp.2 (hall row hmem hp.1.1 hp.1.2)
      | none => rfl
  · intro key row payments hmem hkey
    rw [List.find?_isSome]
    exact ⟨row, hmem, by simp [inLockIdemPred, hkey]⟩
  · intro env session ctx s row hrt hel hidem
    cases helig : validateStudentPaymentEligibility ctx.studentId ctx.amount session
        s.students s.payments with
    | invalid msg =>
      rw [helig] at hel
      simp [EligibilityValidation.isValid] at hel
    | valid m student totalPaid newTotal =>
      refine ⟨?_, ?_⟩ <;> simp [inLock, hrt, helig, hidem]

/-- Witness for C5's amended theorem: applying the in-lock part on the
voided-key store returns the voided payment as a duplicate. -/
theorem c5_idempotency_window_amended_witness :
    (inLock envC sessC ctxC sV).result
      = .duplicate rowV.paymentId "payment already recorded (detected in lock)" ∧
    (inLock envC sessC ctxC sV).state = sV :=
  c5_idempotency_window_amended.2.2 envC sessC ctxC sV rowV rfl (by decide) (by decide)

/-- Claim C2 (code bug): the payment ceiling of the claim is the
spec's invariant and the clear intent of the schema — the `Students`
sheet stores ExpectedAmount in column 6 and Status in column 4, and
every other reader uses them that way — but
`validateStudentPaymentEligibility` reads column 4 (the Status string
`Active`) as the expected amount and column 5 (the CreatedAt date) as
the active flag, `parseFloat('Active')` is NaN, and the ceiling guard
never fires.  Evaluating the code at the claim's own boundary input —
student S1 with expected amount 100 and Status `Active`, existing
non-voided total 80 — the payment of 25 that the claim says is
rejected instead commits, with the non-voided total reaching 105,
above the expected amount; `parseFloat` on the Status string is NaN
while the real expected-amount column holds 100. -/
theorem c2_expected_amount_cap_code_bug :
    stuC.status = "Active" ∧ stuC.expectedAmount = 100 ∧
    parseFloat stuC.status = none ∧
    sB.students.find? (fun t => t.studentId == payload25.studentId) = some stuC ∧
    sumNonVoidedFor "S1" sB.payments = 80 ∧
    payload25.amount = some 25 ∧
    (handleRecordPayment envC (some sessC) payload25 sB).result = .committed dataB25 ∧
    sumNonVoidedFor "S1"
        (handleRecordPayment envC (some sessC) payload25 sB).state.payments = 105 ∧
    ¬(sumNonVoidedFor "S1"
        (handleRecordPayment envC (some sessC) payload25 sB).state.payments
      ≤ stuC.expectedAmount) := by decide

/-- Claim C1: after a committed recording, a second request with the
same studentId, amount and idempotency key, issued no earlier and
still within the retention window, returns the same paymentId with
the duplicate marker, and changes nothing in the store — in
particular no second row is appended to the payment ledger. -/
theorem c1_idempotent_retry (env1 env2 : Env) (session1 session2 : Session)
    (payload payload2 : Payload) (s : LedgerState) (data : CommitData)
    (h1 : (handleRecordPayment env1 (some session1) payload s).result = .committed data)
    (heqS : payload2.studentId = payload.studentId)
    (heqA : payload2.amount = payload.amount)
    (heqK : payload2.idempotencyKey = payload.idempotencyKey)
    (hkey : payload.idempotencyKey ≠ "")
    (hrcpt2 : jsTrim payload2.physicalReceiptNo ≠ "")
    (hmono : env1.now ≤ env2.now)
    (hwin : env2.now - retentionMs < env1.now) :
    (handleRecordPayment env2 (some session2) payload2
        (handleRecordPayment env1 (some session1) payload s).state).result
      = .duplicate data.paymentId "payment already recorded" ∧
    (handleRecordPayment env2 (some session2) payload2
        (handleRecordPayment env1 (some session1) payload s).state).state
      = (handleRecordPayment env1 (some session1) payload s).state := by
  obtain ⟨ctx, hpre, -, heq⟩ := handle_committed_inversion h1
  rw [heq] at h1 ⊢
  obtain ⟨hrt, happ, m, student, totalPaid, newTotal, helig, hidem, hrcpt, hday, hdata,
    hout⟩ := inLock_committed_inversion h1
  obtain ⟨hno1, hamt1, hidem1, -, hctx⟩ := preLock_ok_inversion hpre
  have hstate : (inLock env1 session1 ctx s).state
      = ⟨s.students, s.payments ++ [commitRow env1 session1 ctx student],
          logAction env1 "PAYMENT_RECORD" session1.user "Payments" (newPaymentId env1)
            (commitDetails ctx student totalPaid newTotal
              (generateUniqueReceiptNumber env1.randSeqs env1.now ctx.paymentDate s.payments))
            s.audit⟩ := by rw [hout]
  rw [hstate]
  have hctxkey : ctx.idempotencyKey = payload.idempotencyKey := by
    rw [hctx]; exact if_neg hkey
  rw [if_neg hkey] at hidem1
  obtain ⟨hkne, hfind1⟩ := validateIdempotencyKey_valid_inversion hidem1
  have hfind2none : s.payments.find?
      (idemFreshPred payload.idempotencyKey (env2.now - retentionMs)) = none := by
    rw [List.find?_eq_none] at hfind1 ⊢
    intro r hr hp
    refine hfind1 r hr ?_
    simp only [idemFreshPred, Bool.and_eq_true, Bool.not_eq_true', decide_eq_true_eq,
      beq_iff_eq] at hp ⊢
    exact ⟨⟨hp.1.1, lt_of_le_of_lt (by omega) hp.1.2⟩, hp.2⟩
  have hrowpred : idemFreshPred payload.idempotencyKey (env2.now - retentionMs)
      (commitRow env1 session1 ctx student) = true := by
    simp only [idemFreshPred, commitRow, Bool.and_eq_true, Bool.not_eq_true',
      decide_eq_true_eq, beq_iff_eq]
    exact ⟨⟨trivial, hwin⟩, hctxkey⟩
  have hfindapp : (s.payments ++ [commitRow env1 session1 ctx student]).find?
      (idemFreshPred payload.idempotencyKey (env2.now - retentionMs))
      = some (commitRow env1 session1 ctx student) := by
    rw [List.find?_append, hfind2none]
    simp [hrowpred]
  have hidem2 : validateIdempotencyKey payload.idempotencyKey env2.now
      (s.payments ++ [commitRow env1 session1 ctx student])
      = ⟨false, "Duplicate request detected",
          some (commitRow env1 session1 ctx student).paymentId⟩ := by
    simp only [validateIdempotencyKey, if_neg hkne, hfindapp]
  have hno2 : ¬(payload2.studentId = "" ∨ payload2.amount = none ∨
      payload2.amount = some 0 ∨ jsTrim payload2.physicalReceiptNo = "") := by
    push_neg at hno1 ⊢
    rw [heqS, heqA]
    exact ⟨hno1.1, hno1.2.1, hno1.2.2.1, hrcpt2⟩
  have hamt2 : ¬((validatePaymentAmount payload2.amount).valid = false) := by
    rw [heqA, hamt1]; simp
  have hkey2 : (if payload2.idempotencyKey = "" then env2.uuid else payload2.idempotencyKey)
      = payload.idempotencyKey := by
    rw [heqK]; exact if_neg hkey
  have hpre2 : preLockChecks env2 payload2
      (⟨s.students, s.payments ++ [commitRow env1 session1 ctx student],
        logAction env1 "PAYMENT_RECORD" session1.user "Payments" (newPaymentId env1)
          (commitDetails ctx student totalPaid newTotal
            (generateUniqueReceiptNumber env1.randSeqs env1.now ctx.paymentDate s.payments))
          s.audit⟩ : LedgerState)
      = .error (.duplicate (commitRow env1 session1 ctx student).paymentId
          "payment already recorded") := by
    simp only [preLockChecks, hkey2, hidem2, if_neg hno2, if_neg hamt2]
    simp [commitRow, newPaymentId_ne_empty]
  rw [handle_preLock_error hpre2]
  refine ⟨?_, ?_⟩
  · rw [hdata]; rfl
  · rfl

/-- Witness for C1: retrying the concrete committed request of
`payloadC` half a second later returns the original paymentId as a
duplicate and leaves the store unchanged. -/
theorem c1_idempotent_retry_witness :
    (handleRecordPayment { envC with now := 1700000000500 } (some sessC) payloadC
        (handleRecordPayment envC (some sessC) payloadC sC).state).result
      = .duplicate "P170000000042" "payment already recorded" ∧
    (handleRecordPayment { envC with now := 1700000000500 } (some sessC) payloadC
        (handleRecordPayment envC (some sessC) payloadC sC).state).state
      = (handleRecordPayment envC (some sessC) payloadC sC).state :=
  c1_idempotent_retry envC { envC with now := 1700000000500 } sessC sessC payloadC payloadC
    sC ⟨"P170000000042", "R-19000-007", "AB-1", "Ana A", 20, ⟨19000, 100⟩, 0, 20⟩
    (by decide) rfl rfl rfl (by decide) (by decide) (by decide) (by decide)

/-- Claim C10: the system-generated receipt reference never reaches
the payment ledger.  First, the rows of the `Payments` table after a
run do not depend on the random draws that produce the reference (so
no stored field of the payment record is affected by its generation
and it cannot be recovered from the ledger row); second, on a
committed run the single appended row carries the caller-supplied
(trimmed) physical receipt number, its only other string fields are
the empty ReceiptUrl and CollectionDayID placeholders, while the
generated reference is returned as the response's `receiptNo` and
recorded in the audit-log entry. -/
theorem c10_receipt_reference_frame :
    (∀ (env : Env) (f : Nat → Nat) (session? : Option Session) (payload : Payload)
        (s : LedgerState),
      (handleRecordPayment { env with randSeqs := f } session? payload s).state.payments
        = (handleRecordPayment env session? payload s).state.payments) ∧
    (∀ (env : Env) (session : Session) (payload : Payload) (s : LedgerState)
        (data : CommitData),
      (handleRecordPayment env (some session) payload s).result = .committed data →
      ∃ row, (handleRecordPayment env (some session) payload s).state.payments
          = s.payments ++ [row] ∧
        row.physicalReceiptNo = jsTrim payload.physicalReceiptNo ∧
        row.receiptUrl = "" ∧ row.collectionDayId = "" ∧
        data.receiptNo = generateUniqueReceiptNumber env.randSeqs env.now
          (payload.paymentDate.getD env.nowDate) s.payments ∧
        (env.auditOk = true →
          ∃ entry, (handleRecordPayment env (some session) payload s).state.audit
              = s.audit ++ [entry] ∧ entry.details.systemReceiptNo = data.receiptNo)) := by
  constructor
  · intro env f session? payload s
    obtain ⟨n, nd, u, rp, rs, rl, w, a, ao, rt, em⟩ := env
    cases session? with
    | none => rfl
    | some session =>
      cases hpre : preLockChecks ⟨n, nd, u, rp, rs, rl, w, a, ao, rt, em⟩ payload s with
      | error r =>
        rw [handle_preLock_error hpre,
          handle_preLock_error (show preLockChecks ⟨n, nd, u, rp, f, rl, w, a, ao, rt, em⟩
            payload s = .error r from hpre)]
      | ok ctx =>
        cases hl : (acquireLockWithRetry (recordPaymentLockKey ctx.studentId) 3 w).fst with
        | none =>
          rw [handle_lock_busy hpre hl,
            handle_lock_busy (show preLockChecks ⟨n, nd, u, rp, f, rl, w, a, ao, rt, em⟩
              payload s = .ok ctx from hpre) hl]
        | some l =>
          rw [handle_locked hpre hl,
            handle_locked (show preLockChecks ⟨n, nd, u, rp, f, rl, w, a, ao, rt, em⟩
              payload s = .ok ctx from hpre) hl]
          by_cases hrt : rt = true
          · simp [inLock, hrt]
          · cases helig : validateStudentPaymentEligibility ctx.studentId ctx.amount session
                s.students s.payments with
            | invalid msg => simp [inLock, hrt, helig]
            | valid m student totalPaid newTotal =>
              cases hidem : s.payments.find? (inLockIdemPred ctx.idempotencyKey) with
              | some row => simp [inLock, hrt, helig, hidem]
              | none =>
                cases hrcpt : s.payments.find? (inLockReceiptPred ctx.physicalReceiptNo) with
                | some row => simp [inLock, hrt, helig, hidem, hrcpt]
                | none =>
                  cases hday : s.payments.find?
                      (sameDayPred ctx.studentId ctx.paymentDate) with
                  | some row => simp [inLock, hrt, helig, hidem, hrcpt, hday]
                  | none =>
                    by_cases happ : a = false
                    · simp [inLock, hrt, helig, hidem, hrcpt, hday, happ]
                    · simp [inLock, hrt, helig, hidem, hrcpt, hday, happ, commitRow,
                        newPaymentId]
  · intro env session payload s data hrun
    obtain ⟨ctx, hpre, -, heq⟩ := handle_committed_inversion hrun
    rw [heq] at hrun ⊢
    obtain ⟨hrt, happ, m, student, totalPaid, newTotal, helig, hidem, hrcpt, hday, hdata,
      hout⟩ := inLock_committed_inversion hrun
    obtain ⟨-, -, -, -, hctx⟩ := preLock_ok_inversion hpre
    refine ⟨commitRow env session ctx student, ?_, ?_, rfl, rfl, ?_, ?_⟩
    · rw [hout]
    · rw [show (commitRow env session ctx student).physicalReceiptNo = ctx.physicalReceiptNo
        from rfl, hctx]
    · rw [hdata, show (commitResponse env ctx student totalPaid newTotal
        (generateUniqueReceiptNumber env.randSeqs env.now ctx.paymentDate
          s.payments)).receiptNo = generateUniqueReceiptNumber env.randSeqs env.now
            ctx.paymentDate s.payments from rfl, hctx]
    · intro hao
      refine ⟨⟨"L" ++ toString (env.now / 1000) ++ toString env.randLog,
        if session.user = "" then "System" else session.user, "PAYMENT_RECORD", "Payments",
        newPaymentId env,
        commitDetails ctx student totalPaid newTotal
          (generateUniqueReceiptNumber env.randSeqs env.now ctx.paymentDate s.payments),
        env.now,
        if env.activeUserEmail = "" then "unknown" else env.activeUserEmail⟩, ?_, ?_⟩
      · rw [hout]
        show logAction env "PAYMENT_RECORD" session.user "Payments" (newPaymentId env)
          (commitDetails ctx student totalPaid newTotal
            (generateUniqueReceiptNumber env.randSeqs env.now ctx.paymentDate s.payments))
          s.audit = _
        rw [logAction, if_pos hao]
      · rw [hdata]
        rfl

/-- Witness for C10: the concrete committed run of `payloadC` appends
exactly one row carrying the physical receipt number, and the audit
entry holds the generated reference returned as `receiptNo`. -/
theorem c10_receipt_reference_frame_witness :
    ∃ row, (handleRecordPayment envC (some sessC) payloadC sC).state.payments
        = sC.payments ++ [row] ∧
      row.physicalReceiptNo = jsTrim payloadC.physicalReceiptNo ∧
      row.receiptUrl = "" ∧ row.collectionDayId = "" ∧
      dataC.receiptNo = generateUniqueReceiptNumber envC.randSeqs envC.now
        (payloadC.paymentDate.getD envC.nowDate) sC.payments ∧
      (envC.auditOk = true →
        ∃ entry, (handleRecordPayment envC (some sessC) payloadC sC).state.audit
            = sC.audit ++ [entry] ∧ entry.details.systemReceiptNo = dataC.receiptNo) :=
  c10_receipt_reference_frame.2 envC sessC payloadC sC dataC (by decide)

end SSC
